import Mathlib

/-!
Verification development for the SSE duplex transports (`SSEServerTransport`,
`HonoSSEServerTransport`) and the client-authentication middleware
(`authenticateClient`) of this repository.

The TypeScript source is embedded shallowly: the mutable fields of each class
become a state record, each method becomes a state-transformer returning the
new state together with an outcome (normal return, thrown error, or an HTTP
response), and the event callbacks (`onclose`, `onerror`, `onmessage`) are
recorded in the state as an invocation count / log.  Machine-level details
that the claims do not touch (exact zod error text, the exact `String(error)`
rendering of thrown errors) are replaced by fixed descriptive strings, noted
at the definition concerned.
-/

/-! ## String helpers (models of the JS string operations used by the source) -/

/-- Character-list prefix test: `charsPrefixOf p l` holds when `p` is an
initial segment of `l`.  Used to model `String.prototype.includes`. -/
def charsPrefixOf : List Char → List Char → Bool
  | [], _ => true
  | _ :: _, [] => false
  | a :: as, b :: bs => a == b && charsPrefixOf as bs

/-- Character-list containment: `needle` occurs contiguously in `hay`. -/
def charsContain : List Char → List Char → Bool
  | [], needle => needle.isEmpty
  | hay@(_ :: t), needle => charsPrefixOf needle hay || charsContain t needle

/-- Models the JavaScript `String.prototype.includes` (case-sensitive
substring containment), used by `HonoSSEServerTransport.handlePostMessage`
for its content-type check. -/
def strIncludes (s sub : String) : Bool :=
  charsContain s.data sub.data

/-- Token characters of RFC 7230, as accepted by the `content-type` npm
package's media-type validation: alphanumerics and
`! # $ % & ' * + - . ^ _ \x60 | ~`. -/
def tokenChar (c : Char) : Bool :=
  c.isAlphanum ||
    ['!', '#', '$', '%', '&', '*', '+', '-', '.', '^', '_', '|', '~',
      Char.ofNat 39, Char.ofNat 96].contains c

/-- ASCII whitespace, for the trim below. -/
def isWhitespaceChar (c : Char) : Bool :=
  c == ' ' || c == Char.ofNat 9 || c == Char.ofNat 10 || c == Char.ofNat 13

/-- Trim whitespace from both ends of a character list (JS `trim`). -/
def trimChars (l : List Char) : List Char :=
  (((l.dropWhile isWhitespaceChar).reverse).dropWhile isWhitespaceChar).reverse

/-- Split a character list at its first `/`, if any. -/
def splitSlash : List Char → Option (List Char × List Char)
  | [] => none
  | c :: rest =>
    if c == '/' then some ([], rest)
    else
      match splitSlash rest with
      | some (a, b) => some (c :: a, b)
      | none => none

/-- A valid `type/subtype` media type: both halves around the first `/` are
nonempty token strings (token characters never include `/`, so this matches
the library's `token+/token+` pattern). -/
def validMediaTypeChars (l : List Char) : Bool :=
  match splitSlash l with
  | some (a, b) => !a.isEmpty && !b.isEmpty && a.all tokenChar && b.all tokenChar
  | none => false

/-- Models `contentType.parse` from the `content-type` npm package as used by
`SSEServerTransport.handlePostMessage`: the header is cut at the first `;`,
trimmed, validated as `token/token`, and the resulting media-type token is
lowercased.  Parameters (only `charset` is consulted by the source, and only
to choose a body text encoding, which this byte-length-level model does not
need) are not modelled.  On an invalid header the function throws; the error
text here is a fixed stand-in for the library's message. -/
def contentTypeParse (header : String) : Except String String :=
  let t := trimChars (header.data.takeWhile (fun c => !(c == ';')))
  if validMediaTypeChars t then .ok (String.mk (t.map Char.toLower))
  else .error "invalid media type"

/-- Hexadecimal digit (uppercase), for percent-escaping in `encodeURI`. -/
def hexDigit (n : Nat) : Char :=
  if n < 10 then Char.ofNat (48 + n) else Char.ofNat (55 + n)

/-- UTF-8 byte sequence of a character, for percent-escaping in `encodeURI`. -/
def utf8Bytes (c : Char) : List Nat :=
  let n := c.toNat
  if n < 128 then [n]
  else if n < 2048 then [192 + n / 64, 128 + n % 64]
  else if n < 65536 then [224 + n / 4096, 128 + (n / 64) % 64, 128 + n % 64]
  else [240 + n / 262144, 128 + (n / 4096) % 64, 128 + (n / 64) % 64, 128 + n % 64]

/-- Characters the JavaScript `encodeURI` builtin leaves unescaped:
alphanumerics plus `- _ . ! ~ * ' ( ) ; , / ? : @ & = + $ #`. -/
def encodeURIUnescaped (c : Char) : Bool :=
  c.isAlphanum ||
    ['-', '_', '.', '!', '~', '*', '(', ')', ';', ',', '/', '?', ':', '@', '&',
      '=', '+', '$', '#', Char.ofNat 39].contains c

/-- Models the JavaScript `encodeURI` builtin, applied by both transports to
the configured endpoint before it is written into the `endpoint` event:
characters in the unescaped set pass through, all others are percent-escaped
byte-wise in UTF-8. -/
def encodeURI (s : String) : String :=
  String.join (s.data.map fun c =>
    if encodeURIUnescaped c then c.toString
    else String.join ((utf8Bytes c).map fun b =>
      "%" ++ (hexDigit (b / 16)).toString ++ (hexDigit (b % 16)).toString))

/-! ## JSON values -/

/-- JSON values, the payloads flowing through `handlePostMessage`. -/
inductive Json where
  | null
  | bool (b : Bool)
  | num (n : Int)
  | str (s : String)
  | arr (elems : List Json)
  | obj (fields : List (String × Json))

/-- Escape one character for a JSON string literal (models the escaping of
`JSON.stringify` for the characters exercised here). -/
def escapeJsonChar (c : Char) : String :=
  if c == Char.ofNat 34 then "\\\""
  else if c == Char.ofNat 92 then "\\\\"
  else if c == Char.ofNat 10 then "\\n"
  else if c == Char.ofNat 13 then "\\r"
  else if c == Char.ofNat 9 then "\\t"
  else c.toString

/-- Escape a whole string for a JSON string literal. -/
def escapeJsonString (s : String) : String :=
  String.join (s.data.map escapeJsonChar)

mutual

/-- Models `JSON.stringify` (compact form, object fields in insertion
order), used by both transports' `send` to serialize the outbound message
into the `data` field of an SSE `message` event. -/
def Json.stringify : Json → String
  | .null => "null"
  | .bool b => if b then "true" else "false"
  | .num n => toString n
  | .str s => "\"" ++ escapeJsonString s ++ "\""
  | .arr elems => "[" ++ String.intercalate "," (Json.stringifyList elems) ++ "]"
  | .obj fields => "\x7b" ++ String.intercalate "," (Json.stringifyFields fields) ++ "\x7d"

/-- Stringify the elements of a JSON array. -/
def Json.stringifyList : List Json → List String
  | [] => []
  | x :: xs => x.stringify :: Json.stringifyList xs

/-- Stringify the fields of a JSON object. -/
def Json.stringifyFields : List (String × Json) → List String
  | [] => []
  | (k, v) :: xs => ("\"" ++ escapeJsonString k ++ "\":" ++ v.stringify) :: Json.stringifyFields xs

end

/-- Field lookup on a JSON object (first binding wins), `none` on non-objects. -/
def Json.getField : Json → String → Option Json
  | .obj fields, k => fields.lookup k
  | _, _ => none

/-! ## JSON-RPC message envelope -/

/-- A validated JSON-RPC message, one of the four envelope shapes of the
spec: request, notification, response, error response. -/
inductive JSONRPCMessage where
  | request (methodName : String) (params : Option Json) (id : Json)
  | notification (methodName : String) (params : Option Json)
  | response (result : Json) (id : Json)
  | errorResponse (code : Int) (message : String) (dataField : Option Json) (id : Json)

/-- A JSON-RPC id: a string or a number. -/
def isValidId : Option Json → Bool
  | some (.str _) => true
  | some (.num _) => true
  | _ => false

/-- Modelled from the spec: `JSONRPCMessageSchema.parse` of `src/types.ts`
(the zod schema module is not part of the provided sources).  Per the spec's
data model, a payload must conform to one of: Request (method, params, id),
Notification (method, params, no id), Response (result, id), Error-Response
(error code/message/data, id); anything else is rejected with a schema
error. -/
def JSONRPCMessageSchema.parse (j : Json) : Except String JSONRPCMessage :=
  match j.getField "method" with
  | some (.str m) =>
    if isValidId (j.getField "id") then
      .ok (.request m (j.getField "params") ((j.getField "id").getD .null))
    else if (j.getField "id").isNone then
      .ok (.notification m (j.getField "params"))
    else .error "invalid id"
  | some _ => .error "method must be a string"
  | none =>
    match j.getField "error" with
    | some e =>
      match e.getField "code", e.getField "message" with
      | some (.num c), some (.str msg) =>
        if isValidId (j.getField "id") then
          .ok (.errorResponse c msg (e.getField "data") ((j.getField "id").getD .null))
        else .error "invalid id"
      | _, _ => .error "invalid error object"
    | none =>
      match j.getField "result" with
      | some r =>
        if isValidId (j.getField "id") then
          .ok (.response r ((j.getField "id").getD .null))
        else .error "invalid id"
      | none => .error "invalid message"

/-- JSON encoding of a validated message, the object `send` receives and
passes to `JSON.stringify` (modelled; mirrors the four envelope shapes). -/
def encodeMessage : JSONRPCMessage → Json
  | .request m params id =>
    .obj ([("method", .str m)] ++ (match params with | some p => [("params", p)] | none => []) ++ [("id", id)])
  | .notification m params =>
    .obj ([("method", .str m)] ++ (match params with | some p => [("params", p)] | none => []))
  | .response r id => .obj [("result", r), ("id", id)]
  | .errorResponse c msg d id =>
    .obj [("error", .obj ([("code", .num c), ("message", .str msg)] ++
      (match d with | some x => [("data", x)] | none => []))), ("id", id)]

/-! ## Client authentication middleware (`src/server/auth/middleware/clientAuth.ts`) -/

/-- The registered-client record consulted by `authenticateClient`
(`OAuthClientInformationFull` restricted to the fields the middleware
reads). `client_secret_expires_at` is in epoch seconds. -/
structure OAuthClientInformationFull where
  client_id : String
  client_secret : Option String
  client_secret_expires_at : Option Nat
deriving DecidableEq

/-- The request body after zod validation: `client_id` a required string,
`client_secret` an optional string (`ClientAuthenticatedRequestSchema`). -/
structure ClientAuthBody where
  client_id : String
  client_secret : Option String
deriving DecidableEq

/-- Outcome of the middleware: attach the client and call `next()`, or
respond with a typed OAuth error (`invalid_request` / `invalid_client`,
both 400-class). -/
inductive AuthOutcome where
  | ok (client : OAuthClientInformationFull)
  | invalidRequest (description : String)
  | invalidClient (description : String)
deriving DecidableEq

/-- JavaScript truthiness of an optional string: `undefined` and the empty
string are falsy. -/
def jsTruthyStr : Option String → Bool
  | none => false
  | some s => !s.isEmpty

/-- The `authenticateClient` middleware body.  `getClient` models
`clientsStore.getClient`; `body` is the zod-validated request body (`none`
models a body that failed `safeParse`, whose error text is a fixed stand-in
for `String(result.error)`); `now` models
`Math.floor(Date.now() / 1000)`. -/
def authenticateClient (getClient : String → Option OAuthClientInformationFull)
    (body : Option ClientAuthBody) (now : Nat) : AuthOutcome :=
  match body with
  | none => .invalidRequest "invalid request body"
  | some b =>
    match getClient b.client_id with
    | none => .invalidClient "Invalid client_id"
    | some client =>
      if jsTruthyStr client.client_secret then
        if !jsTruthyStr b.client_secret then .invalidClient "Client secret is required"
        else if client.client_secret ≠ b.client_secret then .invalidClient "Invalid client_secret"
        else
          match client.client_secret_expires_at with
          | some e => if e ≠ 0 ∧ e < now then .invalidClient "Client secret has expired" else .ok client
          | none => .ok client
      else .ok client

/-! ## SSE frames and inbound POST requests -/

/-- One SSE event written to an outbound sink.  Each `write` call of the
source emits exactly one such frame, rendered by `Frame.render`. -/
inductive Frame where
  | event (name : String) (data : String)
deriving DecidableEq

/-- The exact text a frame puts on the wire, the template shared by
`SSEServerTransport.start`/`send` and `HonoSSEServerTransport.writeEvent`. -/
def Frame.render : Frame → String
  | .event n d => "event: " ++ n ++ "\ndata: " ++ d ++ "\n\n"

/-- The `endpoint` event both `start` implementations emit first. -/
def endpointFrame (endpoint sessionId : String) : Frame :=
  .event "endpoint" (encodeURI endpoint ++ "?sessionId=" ++ sessionId)

/-- The `message` event both `send` implementations emit per message. -/
def messageFrame (m : JSONRPCMessage) : Frame :=
  .event "message" (Json.stringify (encodeMessage m))

/-- `MAXIMUM_MESSAGE_SIZE = "4mb"`, as resolved by the `bytes` package used
by `raw-body`: 4 * 1024 * 1024 bytes. -/
def MAXIMUM_MESSAGE_SIZE : Nat := 4 * 1024 * 1024

/-- An inbound POST request, abstracted to what `handlePostMessage` reads:
the `content-type` header, the raw body's byte length, the result of
`JSON.parse` on the raw body (`none` when the body is not valid JSON), and
the optional already-parsed `parsedBody` argument. -/
structure PostRequest where
  contentTypeHeader : Option String
  bodyLength : Nat
  bodyJson : Option Json
  parsedBody : Option Json

/-- Outcome of one method call: normal return, a thrown error, an HTTP
response written for the caller, or (only `SSEServerTransport
.handlePostMessage` in its not-connected branch) a response together with a
thrown error. -/
inductive StepOutcome where
  | ok
  | threw (msg : String)
  | response (status : Nat) (body : String)
  | responseAndThrew (status : Nat) (body : String) (msg : String)
deriving DecidableEq

/-! ## `SSEServerTransport` (raw `ServerResponse` variant) -/

/-- State of one `SSEServerTransport` instance together with the
`ServerResponse` it owns and its callback observations:
`sseResponseSet` is whether `_sseResponse` is set; `resHeadersSent` /
`resEnded` / `resWrites` model the Node response (`writeHead` called /
`end` called or connection closed / frames successfully written);
`closeListenerRegistered` is whether `start` has installed the
`res.on("close")` handler; the last three fields record the callback
invocations (`onclose` count, `onerror` count, `onmessage` arguments). -/
structure SSEState where
  sseResponseSet : Bool
  resHeadersSent : Bool
  resEnded : Bool
  resWrites : List Frame
  closeListenerRegistered : Bool
  oncloseCount : Nat
  onerrorCount : Nat
  onmessageLog : List JSONRPCMessage

/-- A freshly constructed transport and untouched response. -/
def SSEState.init : SSEState :=
  ⟨false, false, false, [], false, 0, 0, []⟩

/-- `res.write`: append a frame to the wire unless the response has ended
(Node buffers/errors such writes; no bytes reach the peer). -/
def resWrite (st : SSEState) (f : Frame) : SSEState :=
  if st.resEnded then st else { st with resWrites := st.resWrites ++ [f] }

/-- `SSEServerTransport.start`: throw if `_sseResponse` is already set;
`res.writeHead` (which per Node throws `ERR_HTTP_HEADERS_SENT` if headers
were already sent by an earlier `start`); write the `endpoint` event; set
`_sseResponse`; register the `close` listener. -/
def sseStart (endpoint sessionId : String) (st : SSEState) : SSEState × StepOutcome :=
  if st.sseResponseSet then
    (st, .threw "SSEServerTransport already started! If using Server class, note that connect() calls start() automatically.")
  else if st.resHeadersSent then
    (st, .threw "ERR_HTTP_HEADERS_SENT")
  else
    let st1 := resWrite { st with resHeadersSent := true } (endpointFrame endpoint sessionId)
    ({ st1 with sseResponseSet := true, closeListenerRegistered := true }, .ok)

/-- `SSEServerTransport.close`: `this._sseResponse?.end()`, clear
`_sseResponse`, and invoke `onclose` unconditionally. -/
def sseClose (st : SSEState) : SSEState × StepOutcome :=
  let st1 := if st.sseResponseSet then { st with resEnded := true } else st
  ({ st1 with sseResponseSet := false, oncloseCount := st1.oncloseCount + 1 }, .ok)

/-- The response's `close` event (underlying connection closed).  The
connection is gone, so the response is ended; if `start` registered the
handler, it clears `_sseResponse` and invokes `onclose`. -/
def sseResCloseEvent (st : SSEState) : SSEState × StepOutcome :=
  if st.closeListenerRegistered then
    ({ st with resEnded := true, sseResponseSet := false, oncloseCount := st.oncloseCount + 1 }, .ok)
  else
    ({ st with resEnded := true }, .ok)

/-- `SSEServerTransport.send`: throw "Not connected" when `_sseResponse` is
unset, otherwise write one `message` event. -/
def sseSend (m : JSONRPCMessage) (st : SSEState) : SSEState × StepOutcome :=
  if st.sseResponseSet then (resWrite st (messageFrame m), .ok)
  else (st, .threw "Not connected")

/-- Shared tail of both `handlePostMessage`s: `handleMessage` on the decoded
payload; a schema failure invokes `onerror`, is rethrown, and caught into a
400 "Invalid message" response; success invokes `onmessage` and yields
202 "Accepted". -/
def sseHandleParsed (j : Json) (st : SSEState) : SSEState × StepOutcome :=
  match JSONRPCMessageSchema.parse j with
  | .error _ => ({ st with onerrorCount := st.onerrorCount + 1 }, .response 400 "Invalid message")
  | .ok m => ({ st with onmessageLog := st.onmessageLog ++ [m] }, .response 202 "Accepted")

/-- `SSEServerTransport.handlePostMessage`.  Not connected: write a 500
response and throw.  Then, in order: parse and check the content type
(case-insensitively lowercased media-type token must equal
`application/json`); take `parsedBody` if supplied, else read the raw body
capped at `MAXIMUM_MESSAGE_SIZE` (over the cap, `getRawBody` throws, caught
into a 400) and `JSON.parse` it (a failure is caught into a 400 "Invalid
message"); finally `handleMessage`.  The 400 body texts stand in for the
source's `String(error)` / template-literal renderings. -/
def sseHandlePost (req : PostRequest) (st : SSEState) : SSEState × StepOutcome :=
  if st.sseResponseSet then
    match contentTypeParse (req.contentTypeHeader.getD "") with
    | .error e => ({ st with onerrorCount := st.onerrorCount + 1 }, .response 400 e)
    | .ok t =>
      if t ≠ "application/json" then
        ({ st with onerrorCount := st.onerrorCount + 1 },
          .response 400 ("Unsupported content-type: " ++ t))
      else
        match req.parsedBody with
        | some j => sseHandleParsed j st
        | none =>
          if req.bodyLength > MAXIMUM_MESSAGE_SIZE then
            ({ st with onerrorCount := st.onerrorCount + 1 }, .response 400 "request entity too large")
          else
            match req.bodyJson with
            | none => (st, .response 400 "Invalid message")
            | some j => sseHandleParsed j st
  else
    (st, .responseAndThrew 500 "SSE connection not established" "SSE connection not established")

/-- External triggers on one `SSEServerTransport` instance: the four public
methods plus the response's `close` event. -/
inductive SSEOp where
  | start
  | send (m : JSONRPCMessage)
  | close
  | resClose
  | post (req : PostRequest)

/-- Dispatch one trigger. -/
def sseStep (endpoint sessionId : String) (st : SSEState) : SSEOp → SSEState × StepOutcome
  | .start => sseStart endpoint sessionId st
  | .send m => sseSend m st
  | .close => sseClose st
  | .resClose => sseResCloseEvent st
  | .post req => sseHandlePost req st

/-- Run a sequence of triggers, keeping the final state. -/
def sseRun (endpoint sessionId : String) (st : SSEState) : List SSEOp → SSEState
  | [] => st
  | op :: ops => sseRun endpoint sessionId (sseStep endpoint sessionId st op).1 ops

/-! ## `HonoSSEServerTransport` (TransformStream variant) -/

/-- State of one `HonoSSEServerTransport` instance: `writerSet` is whether
`_writer` is set, `isConnectionClosed` mirrors the field of the same name,
`abortListenerRegistered` is whether `start` reached the
`signal.addEventListener('abort', ...)` line, and `streams` collects the
write lists of the transform streams the instance has created (most recent
first; `start` creates a fresh one each time it passes the `_writer`
guard). -/
structure HonoState where
  writerSet : Bool
  isConnectionClosed : Bool
  abortListenerRegistered : Bool
  streams : List (List Frame)
  oncloseCount : Nat
  onerrorCount : Nat
  onmessageLog : List JSONRPCMessage

/-- A freshly constructed instance. -/
def HonoState.init : HonoState :=
  ⟨false, false, false, [], 0, 0, []⟩

/-- `this._writer.write(...)`: append a frame to the current stream. -/
def honoWrite (st : HonoState) (f : Frame) : HonoState :=
  match st.streams with
  | [] => st
  | s :: rest => { st with streams := (s ++ [f]) :: rest }

/-- `HonoSSEServerTransport.handleConnectionClose`: guarded by
`_isConnectionClosed`; on the first call it sets the flag, closes and clears
the writer, and invokes `onclose`. -/
def honoHandleConnectionClose (st : HonoState) : HonoState :=
  if st.isConnectionClosed then st
  else { st with isConnectionClosed := true, writerSet := false,
                 oncloseCount := st.oncloseCount + 1 }

/-- `HonoSSEServerTransport.start`: throw if `_writer` is set; otherwise
create a fresh TransformStream and writer, install the streaming response,
and `writeEvent("endpoint", ...)` — whose own guard throws "Not connected"
when `_isConnectionClosed` is already set (leaving the new writer in
place); on success register the abort listener. -/
def honoStart (endpoint sessionId : String) (st : HonoState) : HonoState × StepOutcome :=
  if st.writerSet then
    (st, .threw "HonoSSEServerTransport already started! If using Server class, note that connect() calls start() automatically.")
  else
    let st1 := { st with writerSet := true, streams := [] :: st.streams }
    if st1.isConnectionClosed then (st1, .threw "Not connected")
    else
      let st2 := honoWrite st1 (endpointFrame endpoint sessionId)
      ({ st2 with abortListenerRegistered := true }, .ok)

/-- `HonoSSEServerTransport.send`: `writeEvent("message", ...)`, whose guard
throws "Not connected" when the writer is unset or the connection closed. -/
def honoSend (m : JSONRPCMessage) (st : HonoState) : HonoState × StepOutcome :=
  if !st.writerSet || st.isConnectionClosed then (st, .threw "Not connected")
  else (honoWrite st (messageFrame m), .ok)

/-- `HonoSSEServerTransport.close` delegates to `handleConnectionClose`. -/
def honoClose (st : HonoState) : HonoState × StepOutcome :=
  (honoHandleConnectionClose st, .ok)

/-- The GET request's abort signal firing: runs `handleConnectionClose` if
`start` registered the listener. -/
def honoAbortEvent (st : HonoState) : HonoState × StepOutcome :=
  if st.abortListenerRegistered then (honoHandleConnectionClose st, .ok) else (st, .ok)

/-- Shared tail of `HonoSSEServerTransport.handlePostMessage`: identical
`handleMessage` logic to the other variant (schema failure → `onerror`,
rethrow, caught into 400; success → `onmessage`, 202). -/
def honoHandleParsed (j : Json) (st : HonoState) : HonoState × StepOutcome :=
  match JSONRPCMessageSchema.parse j with
  | .error _ => ({ st with onerrorCount := st.onerrorCount + 1 }, .response 400 "Invalid message")
  | .ok m => ({ st with onmessageLog := st.onmessageLog ++ [m] }, .response 202 "Accepted")

/-- `HonoSSEServerTransport.handlePostMessage`.  Not connected: return a 500
response (no throw).  The content-type check is
`contentTypeHeader.includes("application/json")` — a case-sensitive
substring test on the raw header; its failure invokes `onerror` and yields a
400.  The body is `parsedBody` if supplied, else `context.req.json()` (no
size limit; a JSON parse failure is caught in the same `catch`, invoking
`onerror` and yielding a 400); finally `handleMessage`. -/
def honoHandlePost (req : PostRequest) (st : HonoState) : HonoState × StepOutcome :=
  if !st.writerSet || st.isConnectionClosed then
    (st, .response 500 "SSE connection not established")
  else
    if !strIncludes (req.contentTypeHeader.getD "") "application/json" then
      ({ st with onerrorCount := st.onerrorCount + 1 },
        .response 400 ("Unsupported content-type: " ++ req.contentTypeHeader.getD ""))
    else
      match req.parsedBody with
      | some j => honoHandleParsed j st
      | none =>
        match req.bodyJson with
        | none => ({ st with onerrorCount := st.onerrorCount + 1 }, .response 400 "invalid JSON body")
        | some j => honoHandleParsed j st

/-- External triggers on one `HonoSSEServerTransport` instance. -/
inductive HonoOp where
  | start
  | send (m : JSONRPCMessage)
  | close
  | abortSignal
  | post (req : PostRequest)

/-- Dispatch one trigger. -/
def honoStep (endpoint sessionId : String) (st : HonoState) : HonoOp → HonoState × StepOutcome
  | .start => honoStart endpoint sessionId st
  | .send m => honoSend m st
  | .close => honoClose st
  | .abortSignal => honoAbortEvent st
  | .post req => honoHandlePost req st

/-- Run a sequence of triggers, keeping the final state. -/
def honoRun (endpoint sessionId : String) (st : HonoState) : List HonoOp → HonoState
  | [] => st
  | op :: ops => honoRun endpoint sessionId (honoStep endpoint sessionId st op).1 ops

/-! ## Claims about the client authentication middleware -/

/-- Store with a single registered client whose secret "s1" expired at epoch
second 1. -/
def c1Store : String → Option OAuthClientInformationFull :=
  fun cid => if cid = "client1" then some ⟨"client1", some "s1", some 1⟩ else none

/-- C1 counterexample: with a stored secret "s1" expired at epoch second 1
and current time 1000, a caller supplying the non-matching secret "wrong" is
rejected with "Invalid client_secret", not with "Client secret has expired"
— the expiry check runs only after the match check, so the claimed
"expired regardless of secret match" behaviour does not hold. -/
theorem c1_counterexample :
    authenticateClient c1Store (some ⟨"client1", some "wrong"⟩) 1000 =
      AuthOutcome.invalidClient "Invalid client_secret" ∧
    authenticateClient c1Store (some ⟨"client1", some "wrong"⟩) 1000 ≠
      AuthOutcome.invalidClient "Client secret has expired" :=
  ⟨rfl, by decide⟩

/-- C1 (amended): for a client with a stored non-empty secret whose
(non-zero) expiry lies before the current time, `authenticateClient`
rejects with "Client secret has expired" exactly when the caller supplies
the matching secret; an absent caller secret yields "Client secret is
required" and a differing non-empty one yields "Invalid client_secret",
the expiry notwithstanding. -/
theorem c1_amended (store : String → Option OAuthClientInformationFull)
    (cid s : String) (e now : Nat) (client : OAuthClientInformationFull)
    (hc : store cid = some client)
    (hs : client.client_secret = some s) (hsne : s ≠ "")
    (he : client.client_secret_expires_at = some e) (he0 : e ≠ 0) (hlt : e < now) :
    authenticateClient store (some ⟨cid, some s⟩) now =
      AuthOutcome.invalidClient "Client secret has expired" ∧
    authenticateClient store (some ⟨cid, none⟩) now =
      AuthOutcome.invalidClient "Client secret is required" ∧
    ∀ t, t ≠ "" → t ≠ s →
      authenticateClient store (some ⟨cid, some t⟩) now =
        AuthOutcome.invalidClient "Invalid client_secret" := by
  have hne : ¬s.isEmpty := by simpa [String.isEmpty_iff] using hsne
  refine ⟨?_, ?_, ?_⟩
  · simp [authenticateClient, hc, hs, he, jsTruthyStr, hne, he0, hlt]
  · simp [authenticateClient, hc, hs, jsTruthyStr, hne]
  · intro t ht hts
    have htne : ¬t.isEmpty := by simpa [String.isEmpty_iff] using ht
    simp [authenticateClient, hc, hs, jsTruthyStr, hne, htne, Ne.symm hts]

/-- C1 amended witness: the concrete expired client of `c1Store` with the
matching caller secret is rejected as expired. -/
theorem c1_amended_witness :
    authenticateClient c1Store (some ⟨"client1", some "s1"⟩) 1000 =
      AuthOutcome.invalidClient "Client secret has expired" :=
  (c1_amended c1Store "client1" "s1" 1 1000 ⟨"client1", some "s1", some 1⟩
    (by decide) rfl (by decide) rfl (by decide) (by decide)).1

/-- Store with a single registered client whose stored secret is the empty
string (a well-typed value of the optional string field). -/
def c8Store : String → Option OAuthClientInformationFull :=
  fun cid => if cid = "client8" then some ⟨"client8", some "", none⟩ else none

/-- C8 counterexample: a client whose stored secret is the empty string has
a stored, unexpired secret, yet a caller supplying no secret succeeds
(JavaScript truthiness skips the whole secret block) instead of failing
with "Client secret is required" as the claim requires. -/
theorem c8_counterexample :
    authenticateClient c8Store (some ⟨"client8", none⟩) 1000 =
      AuthOutcome.ok ⟨"client8", some "", none⟩ ∧
    authenticateClient c8Store (some ⟨"client8", none⟩) 1000 ≠
      AuthOutcome.invalidClient "Client secret is required" :=
  ⟨rfl, by decide⟩

/-- C8 (amended): unknown `client_id` fails with "Invalid client_id"; a
client with no stored secret — or with a stored *empty* secret, which the
code treats as absent — succeeds whatever the caller sends; for a stored
non-empty unexpired secret, authentication succeeds exactly on an identical
caller secret, an absent or empty caller secret yields "Client secret is
required", and a differing non-empty one yields "Invalid client_secret". -/
theorem c8_amended (store : String → Option OAuthClientInformationFull)
    (cid : String) (now : Nat) :
    (store cid = none →
      ∀ sec, authenticateClient store (some ⟨cid, sec⟩) now =
        AuthOutcome.invalidClient "Invalid client_id") ∧
    (∀ client, store cid = some client → client.client_secret = none →
      ∀ sec, authenticateClient store (some ⟨cid, sec⟩) now = AuthOutcome.ok client) ∧
    (∀ client, store cid = some client → client.client_secret = some "" →
      ∀ sec, authenticateClient store (some ⟨cid, sec⟩) now = AuthOutcome.ok client) ∧
    (∀ client s, store cid = some client → client.client_secret = some s → s ≠ "" →
      (∀ e, client.client_secret_expires_at = some e → e = 0 ∨ now ≤ e) →
      authenticateClient store (some ⟨cid, some s⟩) now = AuthOutcome.ok client ∧
      authenticateClient store (some ⟨cid, none⟩) now =
        AuthOutcome.invalidClient "Client secret is required" ∧
      authenticateClient store (some ⟨cid, some ""⟩) now =
        AuthOutcome.invalidClient "Client secret is required" ∧
      ∀ t, t ≠ "" → t ≠ s →
        authenticateClient store (some ⟨cid, some t⟩) now =
          AuthOutcome.invalidClient "Invalid client_secret") := by
  refine ⟨?_, ?_, ?_, ?_⟩
  · intro h sec
    simp [authenticateClient, h]
  · intro client hc hs sec
    simp [authenticateClient, hc, hs, jsTruthyStr]
  · intro client hc hs sec
    have h0 : "".isEmpty = true := rfl
    simp [authenticateClient, hc, hs, jsTruthyStr, h0]
  · intro client s hc hs hsne hexp
    have hne : ¬s.isEmpty := by simpa [String.isEmpty_iff] using hsne
    refine ⟨?_, ?_, ?_, ?_⟩
    · cases hE : client.client_secret_expires_at with
      | none => simp [authenticateClient, hc, hs, jsTruthyStr, hne, hE]
      | some e =>
        rcases hexp e hE with h0 | hge
        · simp [authenticateClient, hc, hs, jsTruthyStr, hne, hE, h0]
        · simp [authenticateClient, hc, hs, jsTruthyStr, hne, hE, Nat.not_lt.mpr hge]
    · simp [authenticateClient, hc, hs, jsTruthyStr, hne]
    · have h0 : "".isEmpty = true := rfl
      simp [authenticateClient, hc, hs, jsTruthyStr, hne, h0]
    · intro t ht hts
      have htne : ¬t.isEmpty := by simpa [String.isEmpty_iff] using ht
      simp [authenticateClient, hc, hs, jsTruthyStr, hne, htne, Ne.symm hts]

/-- C8 amended witness: the empty-string-secret client of `c8Store`
authenticates a caller supplying an arbitrary secret. -/
theorem c8_amended_witness :
    authenticateClient c8Store (some ⟨"client8", some "x"⟩) 5 =
      AuthOutcome.ok ⟨"client8", some "", none⟩ :=
  (c8_amended c8Store "client8" 5).2.2.1 ⟨"client8", some "", none⟩ (by decide) rfl (some "x")

/-! ## Concrete fixtures for the transport claims -/

/-- A JSON payload `\x7b"method": "ping"\x7d`, a valid notification. -/
def pingJson : Json := .obj [("method", .str "ping")]

/-- Its parse result. -/
def pingMessage : JSONRPCMessage := .notification "ping" none

/-- One `SSEServerTransport` started on endpoint `/message`, session `abc`. -/
def sseStarted : SSEState := (sseStart "/message" "abc" SSEState.init).1

/-- One `HonoSSEServerTransport` started the same way. -/
def honoStarted : HonoState := (honoStart "/message" "abc" HonoState.init).1

/-! ## C2: `onclose` at most once -/

/-- C2 counterexample: on `SSEServerTransport`, an explicit `close()`
followed by the response's `close` event fires `onclose` twice — neither
`close` nor the `close` listener guards against refiring. -/
theorem c2_counterexample :
    (sseRun "/message" "abc" SSEState.init
      [SSEOp.start, SSEOp.close, SSEOp.resClose]).oncloseCount = 2 := rfl

/-- Helper for C2: one step of `HonoSSEServerTransport` preserves the exact
accounting "`onclose` has fired iff `_isConnectionClosed` is set". -/
theorem honoStep_oncloseCount (endpoint sessionId : String) (st : HonoState) (op : HonoOp)
    (h : st.oncloseCount = if st.isConnectionClosed then 1 else 0) :
    (honoStep endpoint sessionId st op).1.oncloseCount =
      if (honoStep endpoint sessionId st op).1.isConnectionClosed then 1 else 0 := by
  cases op <;>
    simp only [honoStep, honoStart, honoSend, honoClose, honoAbortEvent, honoHandlePost,
      honoHandleConnectionClose, honoHandleParsed, honoWrite] <;>
    (repeat' split) <;> simp_all

/-- Helper for C2: the accounting holds after any run. -/
theorem honoRun_oncloseCount (endpoint sessionId : String) (ops : List HonoOp) :
    ∀ st : HonoState, st.oncloseCount = (if st.isConnectionClosed then 1 else 0) →
    (honoRun endpoint sessionId st ops).oncloseCount =
      if (honoRun endpoint sessionId st ops).isConnectionClosed then 1 else 0 := by
  induction ops with
  | nil => intro st h; simpa [honoRun] using h
  | cons op ops ih =>
    intro st h
    simp only [honoRun]
    exact ih _ (honoStep_oncloseCount endpoint sessionId st op h)

/-- C2 (amended): `HonoSSEServerTransport` fires `onclose` at most once over
any sequence of triggers (its `_isConnectionClosed` guard is idempotent),
but `SSEServerTransport` has no such guard: an explicit `close()` followed
by the response's `close` event fires `onclose` twice. -/
theorem c2_amended (endpoint sessionId : String) (ops : List HonoOp) :
    (honoRun endpoint sessionId HonoState.init ops).oncloseCount ≤ 1 ∧
    (sseRun endpoint sessionId SSEState.init
      [SSEOp.start, SSEOp.close, SSEOp.resClose]).oncloseCount = 2 := by
  constructor
  · have h := honoRun_oncloseCount endpoint sessionId ops HonoState.init rfl
    rw [h]
    split <;> omega
  · rfl

/-! ## C6: `send` after close -/

/-- C6: in both variants, once the transport is disconnected — after
`close()` or after the peer-initiated close/abort was detected — `send`
throws "Not connected" and leaves the state (in particular the outbound
writes) untouched; `close()` and the close events do put the transport in
that disconnected state. -/
theorem c6_confirmed :
    (∀ (st : SSEState) (m : JSONRPCMessage), st.sseResponseSet = false →
      sseSend m st = (st, StepOutcome.threw "Not connected")) ∧
    (∀ st : SSEState, (sseClose st).1.sseResponseSet = false) ∧
    (∀ st : SSEState, st.closeListenerRegistered = true →
      (sseResCloseEvent st).1.sseResponseSet = false) ∧
    (∀ (st : HonoState) (m : JSONRPCMessage),
      st.writerSet = false ∨ st.isConnectionClosed = true →
      honoSend m st = (st, StepOutcome.threw "Not connected")) ∧
    (∀ st : HonoState, (honoClose st).1.isConnectionClosed = true) ∧
    (∀ st : HonoState, st.abortListenerRegistered = true →
      (honoAbortEvent st).1.isConnectionClosed = true) := by
  refine ⟨?_, ?_, ?_, ?_, ?_, ?_⟩
  · intro st m h; simp [sseSend, h]
  · intro st; simp [sseClose]
  · intro st h; simp [sseResCloseEvent, h]
  · intro st m h; rcases h with h | h <;> simp [honoSend, h]
  · intro st; simp [honoClose, honoHandleConnectionClose]; split <;> simp_all
  · intro st h
    simp only [honoAbortEvent, h, if_true, honoHandleConnectionClose]
    split <;> simp_all

/-- C6 witness: on the concrete started instances, `send` after `close()`
throws "Not connected" without writing. -/
theorem c6_witness :
    sseSend pingMessage (sseClose sseStarted).1 =
      ((sseClose sseStarted).1, StepOutcome.threw "Not connected") ∧
    honoSend pingMessage (honoClose honoStarted).1 =
      ((honoClose honoStarted).1, StepOutcome.threw "Not connected") :=
  ⟨c6_confirmed.1 _ pingMessage rfl, c6_confirmed.2.2.2.1 _ pingMessage (Or.inr rfl)⟩

/-! ## C10: `handlePostMessage` on a non-streaming transport -/

/-- C10: when the transport is not streaming, `SSEServerTransport
.handlePostMessage` writes a 500 response with body "SSE connection not
established" and also throws (the awaited call rejects), while
`HonoSSEServerTransport.handlePostMessage` only returns the 500 response
without throwing. -/
theorem c10_confirmed :
    (∀ (st : SSEState) (req : PostRequest), st.sseResponseSet = false →
      sseHandlePost req st =
        (st, StepOutcome.responseAndThrew 500 "SSE connection not established"
          "SSE connection not established")) ∧
    (∀ (st : HonoState) (req : PostRequest),
      st.writerSet = false ∨ st.isConnectionClosed = true →
      honoHandlePost req st = (st, StepOutcome.response 500 "SSE connection not established")) := by
  constructor
  · intro st req h; simp [sseHandlePost, h]
  · intro st req h; rcases h with h | h <;> simp [honoHandlePost, h]

/-- C10 witness: both fresh (unstarted) instances answer a well-formed POST
with the 500 "SSE connection not established" outcome, the raw variant also
throwing. -/
theorem c10_witness :
    sseHandlePost ⟨some "application/json", 2, some pingJson, none⟩ SSEState.init =
      (SSEState.init, StepOutcome.responseAndThrew 500 "SSE connection not established"
        "SSE connection not established") ∧
    honoHandlePost ⟨some "application/json", 2, some pingJson, none⟩ HonoState.init =
      (HonoState.init, StepOutcome.response 500 "SSE connection not established") :=
  ⟨c10_confirmed.1 _ _ rfl, c10_confirmed.2 _ _ (Or.inl rfl)⟩

/-! ## C5: a second `start()` always throws -/

/-- Helper: `resHeadersSent`, once set, survives every trigger. -/
theorem sseStep_resHeadersSent (endpoint sessionId : String) (st : SSEState) (op : SSEOp)
    (h : st.resHeadersSent = true) :
    (sseStep endpoint sessionId st op).1.resHeadersSent = true := by
  cases op <;>
    simp only [sseStep, sseStart, sseSend, sseClose, sseResCloseEvent, sseHandlePost,
      sseHandleParsed, resWrite] <;>
    (repeat' split) <;> simp_all

/-- Helper: `resHeadersSent` survives every run. -/
theorem sseRun_resHeadersSent (endpoint sessionId : String) (ops : List SSEOp) :
    ∀ st : SSEState, st.resHeadersSent = true →
    (sseRun endpoint sessionId st ops).resHeadersSent = true := by
  induction ops with
  | nil => intro st h; simpa [sseRun] using h
  | cons op ops ih =>
    intro st h
    simp only [sseRun]
    exact ih _ (sseStep_resHeadersSent endpoint sessionId st op h)

/-- Helper: "writer set or connection closed" survives every trigger on a
`HonoSSEServerTransport`. -/
theorem honoStep_started (endpoint sessionId : String) (st : HonoState) (op : HonoOp)
    (h : st.writerSet = true ∨ st.isConnectionClosed = true) :
    (honoStep endpoint sessionId st op).1.writerSet = true ∨
      (honoStep endpoint sessionId st op).1.isConnectionClosed = true := by
  cases op <;>
    simp only [honoStep, honoStart, honoSend, honoClose, honoAbortEvent, honoHandlePost,
      honoHandleConnectionClose, honoHandleParsed, honoWrite] <;>
    (repeat' split) <;> simp_all

/-- Helper: the same, over a run. -/
theorem honoRun_started (endpoint sessionId : String) (ops : List HonoOp) :
    ∀ st : HonoState, st.writerSet = true ∨ st.isConnectionClosed = true →
    (honoRun endpoint sessionId st ops).writerSet = true ∨
      (honoRun endpoint sessionId st ops).isConnectionClosed = true := by
  induction ops with
  | nil => intro st h; simpa [honoRun] using h
  | cons op ops ih =>
    intro st h
    simp only [honoRun]
    exact ih _ (honoStep_started endpoint sessionId st op h)

/-- C5: once `start()` has succeeded on an instance of either variant, any
later `start()` — after any sequence of triggers, including closing the
first stream — throws rather than silently re-establishing: while started
it throws the "already started" contract error; on the raw variant after a
close, `res.writeHead` throws `ERR_HTTP_HEADERS_SENT`; on the Hono variant
after a close, its `writeEvent` guard throws "Not connected". -/
theorem c5_confirmed (endpoint sessionId : String) :
    (∀ (st st' : SSEState), sseStart endpoint sessionId st = (st', StepOutcome.ok) →
      ∀ ops : List SSEOp, ∃ msg,
        (sseStart endpoint sessionId (sseRun endpoint sessionId st' ops)).2 =
          StepOutcome.threw msg) ∧
    (∀ (st st' : HonoState), honoStart endpoint sessionId st = (st', StepOutcome.ok) →
      ∀ ops : List HonoOp, ∃ msg,
        (honoStart endpoint sessionId (honoRun endpoint sessionId st' ops)).2 =
          StepOutcome.threw msg) := by
  constructor
  · intro st st' hstart ops
    have hhs : st'.resHeadersSent = true := by
      have h' := congrArg (fun p => p.1.resHeadersSent) hstart
      by_cases h1 : st.sseResponseSet
      · simp [sseStart, h1] at hstart
      · by_cases h2 : st.resHeadersSent
        · simp [sseStart, h1, h2] at hstart
        · simp only [sseStart, h1, h2, Bool.false_eq_true, if_false] at h'
          simp only [resWrite] at h'
          rw [← h']
          split <;> rfl
    have hp := sseRun_resHeadersSent endpoint sessionId ops st' hhs
    by_cases h1 : (sseRun endpoint sessionId st' ops).sseResponseSet
    · exact ⟨"SSEServerTransport already started! If using Server class, note that connect() calls start() automatically.", by simp [sseStart, h1]⟩
    · exact ⟨"ERR_HTTP_HEADERS_SENT", by simp [sseStart, h1, hp]⟩
  · intro st st' hstart ops
    have hws : st'.writerSet = true := by
      have h' := congrArg (fun p => p.1.writerSet) hstart
      by_cases h1 : st.writerSet
      · simp [honoStart, h1] at hstart
      · by_cases h2 : st.isConnectionClosed
        · simp [honoStart, h1, h2] at hstart
        · simp only [honoStart, h1, h2, Bool.false_eq_true, if_false] at h'
          simp only [honoWrite] at h'
          rw [← h']
    have hp := honoRun_started endpoint sessionId ops st' (Or.inl hws)
    by_cases h1 : (honoRun endpoint sessionId st' ops).writerSet
    · exact ⟨"HonoSSEServerTransport already started! If using Server class, note that connect() calls start() automatically.", by simp [honoStart, h1]⟩
    · have h2 : (honoRun endpoint sessionId st' ops).isConnectionClosed = true := by
        rcases hp with hp | hp
        · exact absurd hp h1
        · exact hp
      exact ⟨"Not connected", by simp [honoStart, h1, h2]⟩

/-- C5 witness: the concrete started instances, after an explicit `close()`,
still throw on a second `start()`. -/
theorem c5_witness :
    (∃ msg, (sseStart "/message" "abc"
      (sseRun "/message" "abc" sseStarted [SSEOp.close])).2 = StepOutcome.threw msg) ∧
    (∃ msg, (honoStart "/message" "abc"
      (honoRun "/message" "abc" honoStarted [HonoOp.close])).2 = StepOutcome.threw msg) :=
  ⟨(c5_confirmed "/message" "abc").1 SSEState.init sseStarted rfl [SSEOp.close],
   (c5_confirmed "/message" "abc").2 HonoState.init honoStarted rfl [HonoOp.close]⟩

/-! ## C3: content-type enforcement -/

/-- A POST request whose media-type token is `application/jsonx` — not
`application/json` — carrying a valid notification body. -/
def jsonxReq : PostRequest := ⟨some "application/jsonx", 2, none, some pingJson⟩

/-- C3 counterexample: the header `application/jsonx` parses to the
media-type token `application/jsonx`, which is not `application/json`, yet
`HonoSSEServerTransport.handlePostMessage` — whose check is a substring
`includes("application/json")` on the raw header — accepts the request with
202 and fires `onmessage`, instead of rejecting it with 400. -/
theorem c3_counterexample :
    contentTypeParse "application/jsonx" = Except.ok "application/jsonx" ∧
    "application/jsonx" ≠ "application/json" ∧
    (honoHandlePost jsonxReq honoStarted).2 = StepOutcome.response 202 "Accepted" ∧
    (honoHandlePost jsonxReq honoStarted).1.onmessageLog = [pingMessage] :=
  ⟨rfl, by decide, rfl, rfl⟩

/-- C3 (amended): `SSEServerTransport` rejects with 400 — body unvalidated,
`onmessage` unfired — any started-state POST whose parsed media-type token
(lowercased, hence case-insensitive) is not `application/json`;
`HonoSSEServerTransport` instead rejects exactly those requests whose raw
`Content-Type` header does not contain the case-sensitive substring
`application/json`, so it accepts some non-`application/json` tokens and
rejects some valid ones. -/
theorem c3_amended :
    (∀ (st : SSEState) (req : PostRequest) (t : String), st.sseResponseSet = true →
      contentTypeParse (req.contentTypeHeader.getD "") = Except.ok t →
      t ≠ "application/json" →
      (∃ b, (sseHandlePost req st).2 = StepOutcome.response 400 b) ∧
      (sseHandlePost req st).1.onmessageLog = st.onmessageLog) ∧
    (∀ (st : SSEState) (req : PostRequest) (e : String), st.sseResponseSet = true →
      contentTypeParse (req.contentTypeHeader.getD "") = Except.error e →
      (∃ b, (sseHandlePost req st).2 = StepOutcome.response 400 b) ∧
      (sseHandlePost req st).1.onmessageLog = st.onmessageLog) ∧
    (∀ (st : HonoState) (req : PostRequest), st.writerSet = true →
      st.isConnectionClosed = false →
      strIncludes (req.contentTypeHeader.getD "") "application/json" = false →
      (∃ b, (honoHandlePost req st).2 = StepOutcome.response 400 b) ∧
      (honoHandlePost req st).1.onmessageLog = st.onmessageLog) := by
  refine ⟨?_, ?_, ?_⟩
  · intro st req t hstart hct htne
    simp [sseHandlePost, hstart, hct, htne]
  · intro st req e hstart hct
    simp [sseHandlePost, hstart, hct]
  · intro st req hw hc hsub
    simp [honoHandlePost, hw, hc, hsub]

/-- C3 amended witness: a `text/plain` POST is rejected by both started
concrete instances. -/
theorem c3_witness :
    ((∃ b, (sseHandlePost ⟨some "text/plain", 2, none, some pingJson⟩ sseStarted).2 =
      StepOutcome.response 400 b) ∧
     (sseHandlePost ⟨some "text/plain", 2, none, some pingJson⟩ sseStarted).1.onmessageLog =
       sseStarted.onmessageLog) ∧
    ((∃ b, (honoHandlePost ⟨some "text/plain", 2, none, some pingJson⟩ honoStarted).2 =
      StepOutcome.response 400 b) ∧
     (honoHandlePost ⟨some "text/plain", 2, none, some pingJson⟩ honoStarted).1.onmessageLog =
       honoStarted.onmessageLog) :=
  ⟨c3_amended.1 sseStarted _ "text/plain" rfl rfl (by decide),
   c3_amended.2.2 honoStarted _ rfl rfl (by decide)⟩

/-! ## C4: the 4 MiB body cap -/

/-- A well-formed JSON POST whose raw body is one byte over the 4 MiB cap. -/
def oversizeReq : PostRequest :=
  ⟨some "application/json", MAXIMUM_MESSAGE_SIZE + 1, some pingJson, none⟩

/-- C4 counterexample: on a body one byte over 4 MiB, `SSEServerTransport`
rejects with 400 (the `getRawBody` limit), but `HonoSSEServerTransport`
reads and processes it in full — 202 and `onmessage` fired — because
`context.req.json()` applies no size limit. -/
theorem c4_counterexample :
    (sseHandlePost oversizeReq sseStarted).2 =
      StepOutcome.response 400 "request entity too large" ∧
    (honoHandlePost oversizeReq honoStarted).2 = StepOutcome.response 202 "Accepted" ∧
    (honoHandlePost oversizeReq honoStarted).1.onmessageLog = [pingMessage] :=
  ⟨rfl, rfl, rfl⟩

/-- C4 (amended): only `SSEServerTransport` enforces the 4 MiB
(4194304-byte) cap, and only when it reads the raw body itself (no
pre-parsed body supplied): such oversize bodies get a 400 and never reach
validation or `onmessage`.  `HonoSSEServerTransport` is insensitive to the
body length altogether. -/
theorem c4_amended :
    (∀ (st : SSEState) (req : PostRequest), st.sseResponseSet = true →
      contentTypeParse (req.contentTypeHeader.getD "") = Except.ok "application/json" →
      req.parsedBody = none → req.bodyLength > MAXIMUM_MESSAGE_SIZE →
      (∃ b, (sseHandlePost req st).2 = StepOutcome.response 400 b) ∧
      (sseHandlePost req st).1.onmessageLog = st.onmessageLog) ∧
    (∀ (st : HonoState) (req : PostRequest) (n : Nat),
      honoHandlePost req st = honoHandlePost { req with bodyLength := n } st) := by
  constructor
  · intro st req hstart hct hpb hlen
    simp [sseHandlePost, hstart, hct, hpb, hlen]
  · intro st req n
    cases req
    rfl

/-- C4 amended witness: the concrete oversize request is rejected by the
started raw-stream instance without touching `onmessage`. -/
theorem c4_witness :
    (∃ b, (sseHandlePost oversizeReq sseStarted).2 = StepOutcome.response 400 b) ∧
    (sseHandlePost oversizeReq sseStarted).1.onmessageLog = sseStarted.onmessageLog :=
  c4_amended.1 sseStarted oversizeReq rfl rfl rfl (by decide)

/-! ## C7: `onmessage` only after successful validation -/

/-- The JSON payload `handlePostMessage` would hand to `handleMessage`:
the pre-parsed body if supplied, else the `JSON.parse` result of the raw
body (`none` when that parse fails). -/
def PostRequest.payload (req : PostRequest) : Option Json :=
  match req.parsedBody with
  | some j => some j
  | none => req.bodyJson

/-- C7: on a started transport of either variant, (a) a payload whose JSON
parsing failed gets a 400 and never reaches `onmessage`; (b) a payload whose
schema validation failed gets a 400 and never reaches `onmessage`; (c) the
`onmessage` log grows only by a message obtained from a successful
`JSONRPCMessageSchema.parse` of the request's payload, alongside the 202
acknowledgment. -/
theorem c7_confirmed :
    (∀ (st : SSEState) (req : PostRequest), st.sseResponseSet = true →
      req.payload = none →
      (∃ b, (sseHandlePost req st).2 = StepOutcome.response 400 b) ∧
      (sseHandlePost req st).1.onmessageLog = st.onmessageLog) ∧
    (∀ (st : SSEState) (req : PostRequest) (j : Json) (e : String),
      st.sseResponseSet = true →
      req.payload = some j → JSONRPCMessageSchema.parse j = Except.error e →
      (∃ b, (sseHandlePost req st).2 = StepOutcome.response 400 b) ∧
      (sseHandlePost req st).1.onmessageLog = st.onmessageLog) ∧
    (∀ (st : SSEState) (req : PostRequest), st.sseResponseSet = true →
      (sseHandlePost req st).1.onmessageLog = st.onmessageLog ∨
      ∃ j m, req.payload = some j ∧ JSONRPCMessageSchema.parse j = Except.ok m ∧
        (sseHandlePost req st).1.onmessageLog = st.onmessageLog ++ [m] ∧
        (sseHandlePost req st).2 = StepOutcome.response 202 "Accepted") ∧
    (∀ (st : HonoState) (req : PostRequest), st.writerSet = true →
      st.isConnectionClosed = false → req.payload = none →
      (∃ b, (honoHandlePost req st).2 = StepOutcome.response 400 b) ∧
      (honoHandlePost req st).1.onmessageLog = st.onmessageLog) ∧
    (∀ (st : HonoState) (req : PostRequest) (j : Json) (e : String),
      st.writerSet = true → st.isConnectionClosed = false →
      req.payload = some j → JSONRPCMessageSchema.parse j = Except.error e →
      (∃ b, (honoHandlePost req st).2 = StepOutcome.response 400 b) ∧
      (honoHandlePost req st).1.onmessageLog = st.onmessageLog) ∧
    (∀ (st : HonoState) (req : PostRequest), st.writerSet = true →
      st.isConnectionClosed = false →
      (honoHandlePost req st).1.onmessageLog = st.onmessageLog ∨
      ∃ j m, req.payload = some j ∧ JSONRPCMessageSchema.parse j = Except.ok m ∧
        (honoHandlePost req st).1.onmessageLog = st.onmessageLog ++ [m] ∧
        (honoHandlePost req st).2 = StepOutcome.response 202 "Accepted") := by
  refine ⟨?_, ?_, ?_, ?_, ?_, ?_⟩
  · intro st req hstart hpay
    rcases hpb : req.parsedBody with _ | j0
    · have hbj : req.bodyJson = none := by
        simpa [PostRequest.payload, hpb] using hpay
      rcases hct : contentTypeParse (req.contentTypeHeader.getD "") with e | t
      · simp [sseHandlePost, hstart, hct]
      · by_cases hne : t = "application/json"
        · subst hne
          by_cases hlen : req.bodyLength > MAXIMUM_MESSAGE_SIZE
          · simp [sseHandlePost, hstart, hct, hpb, hlen]
          · simp [sseHandlePost, hstart, hct, hpb, hlen, hbj]
        · simp [sseHandlePost, hstart, hct, hne]
    · simp [PostRequest.payload, hpb] at hpay
  · intro st req j e hstart hpay herr
    rcases hct : contentTypeParse (req.contentTypeHeader.getD "") with er | t
    · simp [sseHandlePost, hstart, hct]
    · by_cases hne : t = "application/json"
      · subst hne
        rcases hpb : req.parsedBody with _ | j0
        · have hbj : req.bodyJson = some j := by
            simpa [PostRequest.payload, hpb] using hpay
          by_cases hlen : req.bodyLength > MAXIMUM_MESSAGE_SIZE
          · simp [sseHandlePost, hstart, hct, hpb, hlen]
          · simp [sseHandlePost, hstart, hct, hpb, hlen, hbj, sseHandleParsed, herr]
        · have hj : j0 = j := by
            simpa [PostRequest.payload, hpb] using hpay
          subst hj
          simp [sseHandlePost, hstart, hct, hpb, sseHandleParsed, herr]
      · simp [sseHandlePost, hstart, hct, hne]
  · intro st req hstart
    rcases hct : contentTypeParse (req.contentTypeHeader.getD "") with er | t
    · left; simp [sseHandlePost, hstart, hct]
    · by_cases hne : t = "application/json"
      · subst hne
        rcases hpb : req.parsedBody with _ | j0
        · by_cases hlen : req.bodyLength > MAXIMUM_MESSAGE_SIZE
          · left; simp [sseHandlePost, hstart, hct, hpb, hlen]
          · rcases hbj : req.bodyJson with _ | j1
            · left; simp [sseHandlePost, hstart, hct, hpb, hlen, hbj]
            · rcases hparse : JSONRPCMessageSchema.parse j1 with e | m
              · left
                simp [sseHandlePost, hstart, hct, hpb, hlen, hbj, sseHandleParsed, hparse]
              · right
                refine ⟨j1, m, by simp [PostRequest.payload, hpb, hbj], hparse, ?_, ?_⟩ <;>
                  simp [sseHandlePost, hstart, hct, hpb, hlen, hbj, sseHandleParsed, hparse]
        · rcases hparse : JSONRPCMessageSchema.parse j0 with e | m
          · left; simp [sseHandlePost, hstart, hct, hpb, sseHandleParsed, hparse]
          · right
            refine ⟨j0, m, by simp [PostRequest.payload, hpb], hparse, ?_, ?_⟩ <;>
              simp [sseHandlePost, hstart, hct, hpb, sseHandleParsed, hparse]
      · left; simp [sseHandlePost, hstart, hct, hne]
  · intro st req hw hc hpay
    rcases hpb : req.parsedBody with _ | j0
    · have hbj : req.bodyJson = none := by
        simpa [PostRequest.payload, hpb] using hpay
      cases hsub : strIncludes (req.contentTypeHeader.getD "") "application/json"
      · simp [honoHandlePost, hw, hc, hsub]
      · simp [honoHandlePost, hw, hc, hsub, hpb, hbj]
    · simp [PostRequest.payload, hpb] at hpay
  · intro st req j e hw hc hpay herr
    cases hsub : strIncludes (req.contentTypeHeader.getD "") "application/json"
    · simp [honoHandlePost, hw, hc, hsub]
    · rcases hpb : req.parsedBody with _ | j0
      · have hbj : req.bodyJson = some j := by
          simpa [PostRequest.payload, hpb] using hpay
        simp [honoHandlePost, hw, hc, hsub, hpb, hbj, honoHandleParsed, herr]
      · have hj : j0 = j := by
          simpa [PostRequest.payload, hpb] using hpay
        subst hj
        simp [honoHandlePost, hw, hc, hsub, hpb, honoHandleParsed, herr]
  · intro st req hw hc
    cases hsub : strIncludes (req.contentTypeHeader.getD "") "application/json"
    · left; simp [honoHandlePost, hw, hc, hsub]
    · rcases hpb : req.parsedBody with _ | j0
      · rcases hbj : req.bodyJson with _ | j1
        · left; simp [honoHandlePost, hw, hc, hsub, hpb, hbj]
        · rcases hparse : JSONRPCMessageSchema.parse j1 with e | m
          · left; simp [honoHandlePost, hw, hc, hsub, hpb, hbj, honoHandleParsed, hparse]
          · right
            refine ⟨j1, m, by simp [PostRequest.payload, hpb, hbj], hparse, ?_, ?_⟩ <;>
              simp [honoHandlePost, hw, hc, hsub, hpb, hbj, honoHandleParsed, hparse]
      · rcases hparse : JSONRPCMessageSchema.parse j0 with e | m
        · left; simp [honoHandlePost, hw, hc, hsub, hpb, honoHandleParsed, hparse]
        · right
          refine ⟨j0, m, by simp [PostRequest.payload, hpb], hparse, ?_, ?_⟩ <;>
            simp [honoHandlePost, hw, hc, hsub, hpb, honoHandleParsed, hparse]

/-- C7 witness: a malformed-JSON POST (raw body that fails `JSON.parse`) on
both started concrete instances yields a 400 and leaves `onmessage`
untouched. -/
theorem c7_witness :
    ((∃ b, (sseHandlePost ⟨some "application/json", 2, none, none⟩ sseStarted).2 =
      StepOutcome.response 400 b) ∧
     (sseHandlePost ⟨some "application/json", 2, none, none⟩ sseStarted).1.onmessageLog =
       sseStarted.onmessageLog) ∧
    ((∃ b, (honoHandlePost ⟨some "application/json", 2, none, none⟩ honoStarted).2 =
      StepOutcome.response 400 b) ∧
     (honoHandlePost ⟨some "application/json", 2, none, none⟩ honoStarted).1.onmessageLog =
       honoStarted.onmessageLog) :=
  ⟨c7_confirmed.1 sseStarted _ rfl rfl,
   c7_confirmed.2.2.2.1 honoStarted _ rfl rfl rfl⟩

/-! ## C9: the `endpoint` event is first and unique on each stream -/

/-- Every frame in the list is a `message` event. -/
def msgsOnly (tl : List Frame) : Prop := ∀ f ∈ tl, ∃ m, f = messageFrame m

/-- A wire-frame list is well-formed for C9: empty, or the `endpoint` event
followed only by `message` events (hence no second `endpoint` event). -/
def framesOk (ep sid : String) (l : List Frame) : Prop :=
  l = [] ∨ ∃ tl, l = endpointFrame ep sid :: tl ∧ msgsOnly tl

/-- Helper: the empty tail is messages-only. -/
theorem msgsOnly_nil : msgsOnly [] := by
  intro f hf
  cases hf

/-- Helper: appending one `message` event keeps a tail messages-only. -/
theorem msgsOnly_append (tl : List Frame) (m : JSONRPCMessage) (h : msgsOnly tl) :
    msgsOnly (tl ++ [messageFrame m]) := by
  intro f hf
  rcases List.mem_append.mp hf with hf | hf
  · exact h f hf
  · exact ⟨m, by simpa using hf⟩

/-- The frame-layout invariant of one `SSEServerTransport` response: before
`writeHead` nothing is written and the transport is unstarted; the wire is
always well-formed; and a connected, unended response has a nonempty wire
(its `endpoint` event). -/
def sseFrameInv (ep sid : String) (st : SSEState) : Prop :=
  (st.resHeadersSent = false → st.resWrites = [] ∧ st.sseResponseSet = false) ∧
  framesOk ep sid st.resWrites ∧
  (st.sseResponseSet = true → st.resEnded = false → st.resWrites ≠ [])

/-- `handlePostMessage` touches only the error/message callbacks, never the
response stream or the lifecycle flags. -/
theorem sseHandlePost_preserves (req : PostRequest) (st : SSEState) :
    (sseHandlePost req st).1.resWrites = st.resWrites ∧
    (sseHandlePost req st).1.resHeadersSent = st.resHeadersSent ∧
    (sseHandlePost req st).1.sseResponseSet = st.sseResponseSet ∧
    (sseHandlePost req st).1.resEnded = st.resEnded := by
  simp only [sseHandlePost, sseHandleParsed]
  (repeat' split) <;> simp

/-- The frame-layout invariant survives every trigger. -/
theorem sseStep_frameInv (ep sid : String) (st : SSEState) (op : SSEOp)
    (h : sseFrameInv ep sid st) : sseFrameInv ep sid (sseStep ep sid st op).1 := by
  obtain ⟨ss, hs, en, wr, cl, c1, c2, lg⟩ := st
  obtain ⟨h1, h2, h3⟩ := h
  cases op with
  | start =>
    cases ss with
    | true => exact ⟨h1, h2, h3⟩
    | false =>
      cases hs with
      | true => exact ⟨h1, h2, h3⟩
      | false =>
        obtain ⟨hw0, -⟩ := h1 rfl
        subst hw0
        cases en with
        | false =>
          show sseFrameInv ep sid ⟨true, true, false, [endpointFrame ep sid], true, c1, c2, lg⟩
          exact ⟨fun hh => by simp at hh, Or.inr ⟨[], rfl, msgsOnly_nil⟩, fun _ _ => by simp⟩
        | true =>
          show sseFrameInv ep sid ⟨true, true, true, [], true, c1, c2, lg⟩
          exact ⟨fun hh => by simp at hh, Or.inl rfl, fun _ hh => by simp at hh⟩
  | send m =>
    cases ss with
    | false => exact ⟨h1, h2, h3⟩
    | true =>
      cases en with
      | true => exact ⟨h1, h2, h3⟩
      | false =>
        show sseFrameInv ep sid ⟨true, hs, false, wr ++ [messageFrame m], cl, c1, c2, lg⟩
        have hne : wr ≠ [] := h3 rfl rfl
        rcases h2 with h2 | ⟨tl, htl, hmsgs⟩
        · exact absurd h2 hne
        · subst htl
          refine ⟨fun hh => absurd (h1 hh).2 (by simp), ?_, fun _ _ => by simp⟩
          exact Or.inr ⟨tl ++ [messageFrame m], by simp, msgsOnly_append tl m hmsgs⟩
  | close =>
    cases ss with
    | true =>
      show sseFrameInv ep sid ⟨false, hs, true, wr, cl, c1 + 1, c2, lg⟩
      exact ⟨fun hh => ⟨(h1 hh).1, rfl⟩, h2, fun hh => by simp at hh⟩
    | false =>
      show sseFrameInv ep sid ⟨false, hs, en, wr, cl, c1 + 1, c2, lg⟩
      exact ⟨fun hh => ⟨(h1 hh).1, rfl⟩, h2, fun hh => by simp at hh⟩
  | resClose =>
    cases cl with
    | true =>
      show sseFrameInv ep sid ⟨false, hs, true, wr, true, c1 + 1, c2, lg⟩
      exact ⟨fun hh => ⟨(h1 hh).1, rfl⟩, h2, fun hh => by simp at hh⟩
    | false =>
      show sseFrameInv ep sid ⟨ss, hs, true, wr, false, c1, c2, lg⟩
      exact ⟨fun hh => h1 hh, h2, fun _ hh => by simp at hh⟩
  | post req =>
    obtain ⟨e1, e2, e3, e4⟩ := sseHandlePost_preserves req ⟨ss, hs, en, wr, cl, c1, c2, lg⟩
    show sseFrameInv ep sid (sseHandlePost req ⟨ss, hs, en, wr, cl, c1, c2, lg⟩).1
    unfold sseFrameInv
    rw [e1, e2, e3, e4]
    exact ⟨h1, h2, h3⟩

/-- The frame-layout invariant survives every run. -/
theorem sseRun_frameInv (ep sid : String) (ops : List SSEOp) :
    ∀ st : SSEState, sseFrameInv ep sid st →
    sseFrameInv ep sid (sseRun ep sid st ops) := by
  induction ops with
  | nil => intro st h; simpa [sseRun] using h
  | cons op ops ih =>
    intro st h
    simp only [sseRun]
    exact ih _ (sseStep_frameInv ep sid st op h)

/-- The frame-layout invariant of one `HonoSSEServerTransport`: every
transform stream it ever created is well-formed, and while the writer is
live the current (head) stream starts with the `endpoint` event. -/
def honoFrameInv (ep sid : String) (st : HonoState) : Prop :=
  (∀ s ∈ st.streams, framesOk ep sid s) ∧
  (st.writerSet = true → st.isConnectionClosed = false →
    ∃ tl rest, st.streams = (endpointFrame ep sid :: tl) :: rest ∧ msgsOnly tl)

/-- `handlePostMessage` touches only the error/message callbacks, never the
streams or the lifecycle flags. -/
theorem honoHandlePost_preserves (req : PostRequest) (st : HonoState) :
    (honoHandlePost req st).1.streams = st.streams ∧
    (honoHandlePost req st).1.writerSet = st.writerSet ∧
    (honoHandlePost req st).1.isConnectionClosed = st.isConnectionClosed := by
  simp only [honoHandlePost, honoHandleParsed]
  (repeat' split) <;> simp

/-- The Hono frame-layout invariant survives every trigger. -/
theorem honoStep_frameInv (ep sid : String) (st : HonoState) (op : HonoOp)
    (h : honoFrameInv ep sid st) : honoFrameInv ep sid (honoStep ep sid st op).1 := by
  obtain ⟨ws, cc, al, strs, c1, c2, lg⟩ := st
  obtain ⟨h1, h2⟩ := h
  cases op with
  | start =>
    cases ws with
    | true => exact ⟨h1, h2⟩
    | false =>
      cases cc with
      | true =>
        show honoFrameInv ep sid ⟨true, true, al, [] :: strs, c1, c2, lg⟩
        refine ⟨?_, fun _ hh => by simp at hh⟩
        intro s hs'
        rcases List.mem_cons.mp hs' with hs' | hs'
        · exact Or.inl hs'
        · exact h1 s hs'
      | false =>
        show honoFrameInv ep sid ⟨true, false, true, [endpointFrame ep sid] :: strs, c1, c2, lg⟩
        refine ⟨?_, fun _ _ => ⟨[], strs, rfl, msgsOnly_nil⟩⟩
        intro s hs'
        rcases List.mem_cons.mp hs' with hs' | hs'
        · exact Or.inr ⟨[], hs', msgsOnly_nil⟩
        · exact h1 s hs'
  | send m =>
    cases ws with
    | false => exact ⟨h1, h2⟩
    | true =>
      cases cc with
      | true => exact ⟨h1, h2⟩
      | false =>
        obtain ⟨tl, rest, hstr, hmsgs⟩ := h2 rfl rfl
        subst hstr
        show honoFrameInv ep sid
          ⟨true, false, al, (endpointFrame ep sid :: (tl ++ [messageFrame m])) :: rest, c1, c2, lg⟩
        refine ⟨?_, fun _ _ => ⟨tl ++ [messageFrame m], rest, rfl, msgsOnly_append tl m hmsgs⟩⟩
        intro s hs'
        rcases List.mem_cons.mp hs' with hs' | hs'
        · exact Or.inr ⟨tl ++ [messageFrame m], hs', msgsOnly_append tl m hmsgs⟩
        · exact h1 s (List.mem_cons.mpr (Or.inr hs'))
  | close =>
    cases cc with
    | true => exact ⟨h1, h2⟩
    | false =>
      show honoFrameInv ep sid ⟨false, true, al, strs, c1 + 1, c2, lg⟩
      exact ⟨h1, fun _ hh => by simp at hh⟩
  | abortSignal =>
    cases al with
    | false => exact ⟨h1, h2⟩
    | true =>
      cases cc with
      | true => exact ⟨h1, h2⟩
      | false =>
        show honoFrameInv ep sid ⟨false, true, true, strs, c1 + 1, c2, lg⟩
        exact ⟨h1, fun _ hh => by simp at hh⟩
  | post req =>
    obtain ⟨e1, e2, e3⟩ := honoHandlePost_preserves req ⟨ws, cc, al, strs, c1, c2, lg⟩
    show honoFrameInv ep sid (honoHandlePost req ⟨ws, cc, al, strs, c1, c2, lg⟩).1
    unfold honoFrameInv
    rw [e1, e2, e3]
    exact ⟨h1, h2⟩

/-- The Hono frame-layout invariant survives every run. -/
theorem honoRun_frameInv (ep sid : String) (ops : List HonoOp) :
    ∀ st : HonoState, honoFrameInv ep sid st →
    honoFrameInv ep sid (honoRun ep sid st ops) := by
  induction ops with
  | nil => intro st h; simpa [honoRun] using h
  | cons op ops ih =>
    intro st h
    simp only [honoRun]
    exact ih _ (honoStep_frameInv ep sid st op h)

/-- String append is associative (on the underlying character lists). -/
theorem stringAppend_assoc (a b c : String) : a ++ b ++ c = a ++ (b ++ c) := by
  cases a with | mk xs =>
  cases b with | mk ys =>
  cases c with | mk zs =>
  show String.mk (xs ++ ys ++ zs) = String.mk (xs ++ (ys ++ zs))
  rw [List.append_assoc]

/-- Fusing the literal pieces of the `endpoint` frame text. -/
theorem endpointPrefixFuse (s : String) :
    "event: " ++ ("endpoint" ++ ("\ndata: " ++ s)) = "event: endpoint\ndata: " ++ s := by
  rw [← stringAppend_assoc, ← stringAppend_assoc]
  have L1 : ("event: " ++ "endpoint" ++ "\ndata: " : String) = "event: endpoint\ndata: " := by
    decide
  rw [L1]

/-- C9: over every trigger sequence on a fresh instance of either variant,
each outbound stream is either untouched or carries the `endpoint` frame for
the instance's endpoint and session id first, followed only by `message`
frames — so no event precedes the `endpoint` event and no second `endpoint`
event is ever emitted on a stream; a `message` frame never equals the
`endpoint` frame, and the `endpoint` frame renders to exactly
`event: endpoint\ndata: <encoded endpoint>?sessionId=<id>\n\n`. -/
theorem c9_confirmed (ep sid : String) (ops : List SSEOp) (hops : List HonoOp) :
    framesOk ep sid (sseRun ep sid SSEState.init ops).resWrites ∧
    (∀ s ∈ (honoRun ep sid HonoState.init hops).streams, framesOk ep sid s) ∧
    (∀ m, messageFrame m ≠ endpointFrame ep sid) ∧
    Frame.render (endpointFrame ep sid) =
      "event: endpoint\ndata: " ++ encodeURI ep ++ "?sessionId=" ++ sid ++ "\n\n" := by
  refine ⟨?_, ?_, ?_, ?_⟩
  · exact (sseRun_frameInv ep sid ops SSEState.init
      ⟨fun _ => ⟨rfl, rfl⟩, Or.inl rfl, fun hh => by simp [SSEState.init] at hh⟩).2.1
  · exact (honoRun_frameInv ep sid hops HonoState.init
      ⟨fun s hs => by simp [HonoState.init] at hs, fun hh => by simp [HonoState.init] at hh⟩).1
  · intro m hm
    have hn : "message" = "endpoint" :=
      congrArg (fun f => match f with | Frame.event n _ => n) hm
    exact absurd hn (by decide)
  · show "event: " ++ "endpoint" ++ "\ndata: " ++
      (encodeURI ep ++ "?sessionId=" ++ sid) ++ "\n\n" = _
    simp only [stringAppend_assoc]
    exact endpointPrefixFuse _

/-- C9 witness: on concrete started instances, the raw variant's wire and the
Hono variant's single created stream each carry exactly the `endpoint`
frame. -/
theorem c9_witness :
    framesOk "/message" "abc" (sseRun "/message" "abc" SSEState.init [SSEOp.start]).resWrites ∧
    framesOk "/message" "abc" [endpointFrame "/message" "abc"] := by
  constructor
  · exact (c9_confirmed "/message" "abc" [SSEOp.start] [HonoOp.start]).1
  · have hmem : [endpointFrame "/message" "abc"] ∈
        (honoRun "/message" "abc" HonoState.init [HonoOp.start]).streams := by
      rw [show (honoRun "/message" "abc" HonoState.init [HonoOp.start]).streams =
        [[endpointFrame "/message" "abc"]] from rfl]
      exact List.mem_singleton.mpr rfl
    exact (c9_confirmed "/message" "abc" [SSEOp.start] [HonoOp.start]).2.1 _ hmem
